import Mathlib

/-!
Verification development for the WhisperX API service (`src/api.py`).

The service is a FastAPI application exposing a `/transcribe` handler that
validates an uploaded audio file, persists it to a scratch directory,
acquires a whisper model through a process-wide cache (`get_model`),
transcribes, optionally realigns word timestamps, optionally diarizes, and
assembles a JSON response, with a `finally` block cleaning up the scratch
file and directory.

The external whisperx library functions are opaque collaborators; they are
modelled here as deterministic functions bundled in an `Oracles` record,
each returning `Except String _` (errors model raised exceptions whose
`str(e)` is the carried string).  The handler itself is translated
statement by statement from `src/api.py` into the function `transcribe`,
which returns the HTTP response together with the final cache, the model
load invocations, the final state of the scratch file and directory, and
flags recording which pipeline stages ran.
-/

namespace WhisperxApi

/-- One entry of the `segments` list of a transcription result: start and
end time offsets (modelled as integers since no arithmetic is performed on
them), the text, and an optional speaker label added by diarization. -/
structure Segment where
  start : Int
  «end» : Int
  text : String
  speaker : Option String
deriving DecidableEq, Repr

/-- One entry of the `word_segments` list: a word with its timing. -/
structure Word where
  word : String
  start : Int
  «end» : Int
deriving DecidableEq, Repr

/-- The result dictionary flowing through the pipeline.  Each field is an
`Option` because the Python code accesses the dictionary with `.get`, which
distinguishes an absent key (`none`) from a present value. -/
structure TResult where
  language : Option String
  segments : Option (List Segment)
  word_segments : Option (List Word)
deriving DecidableEq, Repr

/-- Opaque inference handle returned by `whisperx.load_model`. -/
abbrev Handle := Nat

/-- Opaque decoded-audio value returned by `whisperx.load_audio`. -/
abbrev Audio := Nat

/-- Opaque alignment model returned by `whisperx.load_align_model`. -/
abbrev AlignModel := Nat

/-- Opaque alignment metadata returned by `whisperx.load_align_model`. -/
abbrev AlignMetadata := Nat

/-- Opaque diarization pipeline object (`DiarizationPipeline`). -/
abbrev DiarizeModel := Nat

/-- Opaque diarization output (`diarize_segments`). -/
abbrev DiarizeSegments := Nat

/-- Uploaded file content (the bytes returned by `await file.read()`). -/
abbrev Content := List Nat

/-- The external whisperx collaborators, as deterministic functions.  An
`Except.error e` models the call raising an exception with message `e`. -/
structure Oracles where
  load_model : String → Except String Handle
  load_audio : Content → Except String Audio
  transcribe : Handle → Audio → Option String → Except String TResult
  load_align_model : Option String → Except String (AlignModel × AlignMetadata)
  align : List Segment → AlignModel → AlignMetadata → Audio → Except String TResult
  diarization_pipeline : Option String → Except String DiarizeModel
  run_diarization : DiarizeModel → Audio → Option Int → Option Int → Except String DiarizeSegments
  assign_word_speakers : DiarizeSegments → TResult → Except String TResult

/-- A `/transcribe` request: the upload plus the form fields, with the
defaults of `src/api.py` irrelevant here since every field is explicit. -/
structure Request where
  filename : Option String
  content : Content
  model : String
  language : Option String
  align : Bool
  diarize : Bool
  hf_token : Option String
  min_speakers : Option Int
  max_speakers : Option Int
deriving DecidableEq, Repr

/-- Python truthiness of an `Optional[str]`: `None` and the empty string
are falsy, every other string is truthy (used by `not file.filename` and
`not hf_token`). -/
def pyTruthy : Option String → Bool
  | none => false
  | some s => !(s == "")

/-- Python truthiness of `result.get("segments")`: falsy when the key is
absent or the list is empty. -/
def truthySegs : Option (List Segment) → Bool
  | none => false
  | some [] => false
  | some (_ :: _) => true

/-- The process-wide `model_cache` dictionary: model name to handle.  Keys
are unique because the handler only inserts a key it did not find. -/
abbrev Cache := List (String × Handle)

/-- Function `get_model` (api.py lines 31-40): look the name up in `model_cache`;
on a miss invoke the load routine and store the handle.  Returns the
handle or the propagated load error, the updated cache, and whether the
underlying load routine was invoked during this call.  If the load raises,
the assignment into the cache never happens, so the cache is returned
unchanged. -/
def get_model (load : String → Except String Handle) (model_name : String)
    (model_cache : Cache) : Except String Handle × Cache × Bool :=
  match model_cache.lookup model_name with
  | some h => (Except.ok h, model_cache, false)
  | none =>
    match load model_name with
    | Except.ok h => (Except.ok h, (model_name, h) :: model_cache, true)
    | Except.error e => (Except.error e, model_cache, true)

/-- JSON values appearing in the handler responses. -/
inductive JValue where
  | bool : Bool → JValue
  | str : String → JValue
  | null : JValue
  | segs : List Segment → JValue
  | words : List Word → JValue
deriving DecidableEq, Repr

/-- A handler outcome at the HTTP level: a 200 `JSONResponse` with an
ordered field list, or an `HTTPException` with status code and detail. -/
inductive Response where
  | json : List (String × JValue) → Response
  | httpError : Nat → String → Response
deriving DecidableEq, Repr

/-- JSON encoding of an `Optional[str]` value. -/
def jlang : Option String → JValue
  | some s => JValue.str s
  | none => JValue.null

/-- Value `detected_language = result.get("language", language)` (api.py
line 114): the language reported by transcription, falling back to the
request form field when the key is absent. -/
def detectedLanguage (result : TResult) (req : Request) : Option String :=
  match result.language with
  | some l => some l
  | none => req.language

/-- The 200 response body assembled at api.py lines 156-161. -/
def successResponse (detected_language : Option String) (result : TResult) : Response :=
  Response.json
    [("success", JValue.bool true),
     ("language", jlang detected_language),
     ("segments", JValue.segs (result.segments.getD [])),
     ("word_segments", JValue.words (result.word_segments.getD []))]

/-- The alignment stage (api.py lines 117-134): attempted only when the
`align` flag is set and `result.get("segments")` is truthy; the loading of
the language-specific align model and the realignment both sit inside a
`try` whose `except` merely logs, leaving the result unchanged.  Returns
the (possibly replaced) result, whether the align model load was
attempted, and the log lines printed. -/
def alignStage (o : Oracles) (alignFlag : Bool) (detected_language : Option String)
    (audio : Audio) (result : TResult) : TResult × Bool × List String :=
  if alignFlag && truthySegs result.segments then
    match o.load_align_model detected_language with
    | Except.error e => (result, true, ["Alignment failed: " ++ e])
    | Except.ok (model_a, metadata) =>
      match o.align (result.segments.getD []) model_a metadata audio with
      | Except.error e => (result, true, ["Alignment failed: " ++ e])
      | Except.ok r2 => (r2, true, [])
  else (result, false, [])

/-- The body of the diarization `try` block (api.py lines 138-151):
construct the credential-gated pipeline, run it with the speaker bounds,
and merge speaker labels onto the result.  Any raised error is returned
for the enclosing `except` to convert into an HTTP 500. -/
def diarizeStage (o : Oracles) (hf_token : Option String) (audio : Audio)
    (min_speakers max_speakers : Option Int) (result : TResult) :
    Except String TResult :=
  match o.diarization_pipeline hf_token with
  | Except.error e => Except.error e
  | Except.ok diarize_model =>
    match o.run_diarization diarize_model audio min_speakers max_speakers with
    | Except.error e => Except.error e
    | Except.ok diarize_segments => o.assign_word_speakers diarize_segments result

/-- Everything observable about one handler call: the HTTP response, the
final `model_cache`, the list of model names passed to the underlying
load routine, whether the scratch directory was created, whether the
scratch file and directory still exist after the request completes, and
which inference stages were invoked. -/
structure Outcome where
  response : Response
  model_cache : Cache
  loads : List String
  tempCreated : Bool
  tempFileExists : Bool
  tempDirExists : Bool
  transcribeRan : Bool
  alignModelLoadAttempted : Bool
  diarizeAttempted : Bool
  logs : List String
deriving DecidableEq, Repr

/-- The pipeline from `whisperx.load_audio` (api.py line 105) to the end
of the handler, given an already-acquired whisper model.  The cache and
load list are merely carried into the outcome.  Every error branch models
the corresponding raised exception reaching the handler epilogue: a plain
exception becomes `HTTPException(500, str(e))` via the catch-all, an
`HTTPException` is re-raised unchanged, and the `finally` block removes
the scratch file and then its directory on every path, so both `exists`
flags end up false. -/
def runPipeline (o : Oracles) (req : Request) (whisper_model : Handle)
    (model_cache : Cache) (loads : List String) : Outcome :=
  match o.load_audio req.content with
  | Except.error e =>
    { response := Response.httpError 500 e, model_cache := model_cache,
      loads := loads, tempCreated := true, tempFileExists := false,
      tempDirExists := false, transcribeRan := false,
      alignModelLoadAttempted := false, diarizeAttempted := false, logs := [] }
  | Except.ok audio =>
    match o.transcribe whisper_model audio req.language with
    | Except.error e =>
      { response := Response.httpError 500 e, model_cache := model_cache,
        loads := loads, tempCreated := true, tempFileExists := false,
        tempDirExists := false, transcribeRan := true,
        alignModelLoadAttempted := false, diarizeAttempted := false, logs := [] }
    | Except.ok result =>
      match alignStage o req.align (detectedLanguage result req) audio result with
      | (result2, alignAttempted, alignLogs) =>
        if req.diarize && pyTruthy req.hf_token then
          match diarizeStage o req.hf_token audio req.min_speakers
              req.max_speakers result2 with
          | Except.error e =>
            { response := Response.httpError 500 ("Diarization failed: " ++ e),
              model_cache := model_cache, loads := loads, tempCreated := true,
              tempFileExists := false, tempDirExists := false,
              transcribeRan := true, alignModelLoadAttempted := alignAttempted,
              diarizeAttempted := true,
              logs := alignLogs ++ ["Diarization failed: " ++ e] }
          | Except.ok result3 =>
            { response := successResponse (detectedLanguage result req) result3,
              model_cache := model_cache, loads := loads, tempCreated := true,
              tempFileExists := false, tempDirExists := false,
              transcribeRan := true, alignModelLoadAttempted := alignAttempted,
              diarizeAttempted := true, logs := alignLogs }
        else
          { response := successResponse (detectedLanguage result req) result2,
            model_cache := model_cache, loads := loads, tempCreated := true,
            tempFileExists := false, tempDirExists := false,
            transcribeRan := true, alignModelLoadAttempted := alignAttempted,
            diarizeAttempted := false, logs := alignLogs }

/-- The `/transcribe` handler (api.py lines 61-172).  Validation happens
before `tempfile.mkdtemp()`, so a 400 leaves no trace; once the scratch
directory and file exist, the model is acquired through the cache and the
pipeline of `runPipeline` runs under the `try`/`except`/`finally`. -/
def transcribe (o : Oracles) (req : Request) (model_cache : Cache) : Outcome :=
  if !(pyTruthy req.filename) then
    { response := Response.httpError 400 "No file provided",
      model_cache := model_cache, loads := [], tempCreated := false,
      tempFileExists := false, tempDirExists := false, transcribeRan := false,
      alignModelLoadAttempted := false, diarizeAttempted := false, logs := [] }
  else if req.diarize && !(pyTruthy req.hf_token) then
    { response := Response.httpError 400
        "hf_token is required for diarization. Get one at https://huggingface.co/settings/tokens",
      model_cache := model_cache, loads := [], tempCreated := false,
      tempFileExists := false, tempDirExists := false, transcribeRan := false,
      alignModelLoadAttempted := false, diarizeAttempted := false, logs := [] }
  else
    match get_model o.load_model req.model model_cache with
    | (Except.error e, cache2, _) =>
      { response := Response.httpError 500 e, model_cache := cache2,
        loads := [req.model], tempCreated := true, tempFileExists := false,
        tempDirExists := false, transcribeRan := false,
        alignModelLoadAttempted := false, diarizeAttempted := false, logs := [] }
    | (Except.ok whisper_model, cache2, inv) =>
      runPipeline o req whisper_model cache2 (if inv then [req.model] else [])

/-- Runs `n` sequential calls to `get_model` with the same model name, threading
the cache.  Returns, per call, the returned handle (or error) paired with
whether that call invoked the underlying load routine, together with the
final cache. -/
def get_model_iter (load : String → Except String Handle) (model_name : String) :
    Nat → Cache → List (Except String Handle × Bool) × Cache
  | 0, c => ([], c)
  | Nat.succ n, c =>
    match get_model load model_name c with
    | (r, c2, inv) =>
      match get_model_iter load model_name n c2 with
      | (rs, c3) => ((r, inv) :: rs, c3)

/-! ### Concrete fixtures for witnesses and counterexamples -/

/-- A transcription result with one well-formed segment, used as the
output of the sample oracles. -/
def sampleResult : TResult :=
  { language := some "en",
    segments := some [{ start := 0, «end» := 3, text := "hello world", speaker := none }],
    word_segments := some [{ word := "hello", start := 0, «end» := 1 }] }

/-- The realigned result the sample align oracle produces. -/
def sampleAligned : TResult :=
  { language := none,
    segments := some [{ start := 0, «end» := 2, text := "hello world", speaker := none }],
    word_segments := some [{ word := "hello", start := 0, «end» := 1 }] }

/-- Sample collaborators for which every stage succeeds. -/
def sampleOracles : Oracles :=
  { load_model := fun _ => Except.ok 7,
    load_audio := fun _ => Except.ok 1,
    transcribe := fun _ _ _ => Except.ok sampleResult,
    load_align_model := fun _ => Except.ok (2, 3),
    align := fun _ _ _ _ => Except.ok sampleAligned,
    diarization_pipeline := fun _ => Except.ok 4,
    run_diarization := fun _ _ _ _ => Except.ok 5,
    assign_word_speakers := fun _ r => Except.ok r }

/-- Sample collaborators whose alignment model load raises. -/
def alignFailOracles : Oracles :=
  { sampleOracles with load_align_model := fun _ => Except.error "align boom" }

/-- Sample collaborators whose diarization pipeline constructor raises. -/
def diarizeFailOracles : Oracles :=
  { sampleOracles with diarization_pipeline := fun _ => Except.error "boom" }

/-- A plain valid request: a named upload, alignment on, diarization off. -/
def sampleRequest : Request :=
  { filename := some "audio.wav", content := [10, 20], model := "base",
    language := none, align := true, diarize := false, hf_token := none,
    min_speakers := none, max_speakers := none }

/-- A valid request asking for diarization with a token present. -/
def diarizeRequest : Request :=
  { sampleRequest with diarize := true, hf_token := some "tok" }

/-- A load routine that always raises, modelling a bad identifier. -/
def failLoad : String → Except String Handle := fun _ => Except.error "no weights"

/-- A transcription result whose segment list is present but empty. -/
def emptyResult : TResult :=
  { language := some "en", segments := some [], word_segments := none }

/-- Sample collaborators whose transcription yields no segments. -/
def emptySegOracles : Oracles :=
  { sampleOracles with transcribe := fun _ _ _ => Except.ok emptyResult }

/-- The field list of a 200 JSON response (empty for an error response). -/
def respFields : Response → List (String × JValue)
  | Response.json fs => fs
  | Response.httpError _ _ => []

/-- Segment timing well-formedness: every segment of the result ends at or
after it starts. -/
def SegsWF (r : TResult) : Prop :=
  ∀ s ∈ r.segments.getD [], s.start ≤ s.«end»

/-- The collaborators deliver well-formed segment timing: every result a
transcription, alignment or speaker-assignment call can return satisfies
`SegsWF`. -/
structure OraclesWF (o : Oracles) : Prop where
  transcribeWF : ∀ m a l r, o.transcribe m a l = Except.ok r → SegsWF r
  alignWF : ∀ segs ma md a r, o.align segs ma md a = Except.ok r → SegsWF r
  assignWF : ∀ ds r r2, SegsWF r → o.assign_word_speakers ds r = Except.ok r2 → SegsWF r2

/-! ### Cache lemmas and claims C4, C5 -/

/-- A cache hit returns the stored handle without invoking the load
routine and leaves the cache unchanged. -/
theorem get_model_hit (load : String → Except String Handle) (model_name : String)
    (c : Cache) (h : Handle) (hc : c.lookup model_name = some h) :
    get_model load model_name c = (Except.ok h, c, false) := by
  simp [get_model, hc]

/-- Iterating `get_model` over a cache that already holds the handle
returns it every time and never invokes the load routine. -/
theorem get_model_iter_hit (load : String → Except String Handle) (model_name : String)
    (c : Cache) (h : Handle) (hc : c.lookup model_name = some h) (n : Nat) :
    get_model_iter load model_name n c = (List.replicate n (Except.ok h, false), c) := by
  induction n with
  | zero => simp [get_model_iter]
  | succ n ih => simp [get_model_iter, get_model, hc, ih, List.replicate_succ]

/-- C4: starting from a cache with no entry for the identifier, a sequence
of `n + 1` sequential `get_model` calls invokes the underlying load
routine exactly once, on the first call; every call returns the same
handle, and the final cache binds the identifier to that one handle. -/
theorem C4_cache_loads_once (load : String → Except String Handle) (model_name : String)
    (c : Cache) (h : Handle) (n : Nat)
    (hc : c.lookup model_name = none) (hl : load model_name = Except.ok h) :
    get_model_iter load model_name (n + 1) c =
      ((Except.ok h, true) :: List.replicate n (Except.ok h, false), (model_name, h) :: c) := by
  simp [get_model_iter, get_model, hc, hl,
    get_model_iter_hit load model_name ((model_name, h) :: c) h (by simp) n]

/-- Witness for C4: three calls for "base" on the sample load routine. -/
theorem C4_cache_loads_once_witness :
    ([] : Cache).lookup "base" = none ∧
    sampleOracles.load_model "base" = Except.ok 7 ∧
    get_model_iter sampleOracles.load_model "base" 3 [] =
      ((Except.ok 7, true) :: List.replicate 2 (Except.ok 7, false), [("base", 7)]) :=
  ⟨rfl, rfl, C4_cache_loads_once sampleOracles.load_model "base" [] 7 2 rfl rfl⟩

/-- C5: when the load routine raises, `get_model` propagates the error of
that call, leaves the cache without an entry for the identifier (cache
unchanged), and a subsequent call for the identifier invokes the load
routine again, caching its handle on success. -/
theorem C5_load_failure_not_cached (load : String → Except String Handle)
    (model_name : String) (c : Cache) (e : String)
    (hc : c.lookup model_name = none) (he : load model_name = Except.error e) :
    get_model load model_name c = (Except.error e, c, true) ∧
    ∀ load2 h2, load2 model_name = Except.ok h2 →
      get_model load2 model_name c = (Except.ok h2, (model_name, h2) :: c, true) := by
  constructor
  · simp [get_model, hc, he]
  · intro load2 h2 h
    simp [get_model, hc, h]

/-- Witness for C5: a failing load for "bogus", retried by a working one. -/
theorem C5_load_failure_not_cached_witness :
    ([] : Cache).lookup "bogus" = none ∧
    failLoad "bogus" = Except.error "no weights" ∧
    (get_model failLoad "bogus" [] = (Except.error "no weights", [], true) ∧
      ∀ load2 h2, load2 "bogus" = Except.ok h2 →
        get_model load2 "bogus" [] = (Except.ok h2, [("bogus", h2)], true)) :=
  ⟨rfl, rfl, C5_load_failure_not_cached failLoad "bogus" [] "no weights" rfl rfl⟩

/-! ### Validation claims C2, C3 -/

/-- C2: a request whose upload lacks a (truthy) filename is answered with
HTTP 400 "No file provided" while the load routine was never invoked and
no scratch directory or file was created. -/
theorem C2_missing_filename_rejected (o : Oracles) (req : Request) (c : Cache)
    (h : pyTruthy req.filename = false) :
    (transcribe o req c).response = Response.httpError 400 "No file provided" ∧
    (transcribe o req c).loads = [] ∧
    (transcribe o req c).tempCreated = false := by
  simp [transcribe, h]

/-- Witness for C2: an upload with no filename at all. -/
theorem C2_missing_filename_rejected_witness :
    pyTruthy ({ sampleRequest with filename := none } : Request).filename = false ∧
    ((transcribe sampleOracles { sampleRequest with filename := none } []).response
        = Response.httpError 400 "No file provided" ∧
      (transcribe sampleOracles { sampleRequest with filename := none } []).loads = [] ∧
      (transcribe sampleOracles { sampleRequest with filename := none } []).tempCreated
        = false) :=
  ⟨rfl, C2_missing_filename_rejected sampleOracles
    { sampleRequest with filename := none } [] rfl⟩

/-- C3: a request with `diarize` set but no truthy `hf_token` is answered
with HTTP 400 and no pipeline stage runs: no scratch file is persisted, no
model load is invoked, and neither transcription, alignment-model loading
nor diarization is attempted. -/
theorem C3_diarize_without_token_rejected (o : Oracles) (req : Request) (c : Cache)
    (hd : req.diarize = true) (ht : pyTruthy req.hf_token = false) :
    (∃ d, (transcribe o req c).response = Response.httpError 400 d) ∧
    (transcribe o req c).tempCreated = false ∧
    (transcribe o req c).loads = [] ∧
    (transcribe o req c).transcribeRan = false ∧
    (transcribe o req c).alignModelLoadAttempted = false ∧
    (transcribe o req c).diarizeAttempted = false := by
  cases hf : pyTruthy req.filename <;> simp [transcribe, hd, ht, hf]

/-- Witness for C3: diarization requested with no token supplied. -/
theorem C3_diarize_without_token_rejected_witness :
    ({ sampleRequest with diarize := true } : Request).diarize = true ∧
    pyTruthy ({ sampleRequest with diarize := true } : Request).hf_token = false ∧
    ((∃ d, (transcribe sampleOracles { sampleRequest with diarize := true } []).response
        = Response.httpError 400 d) ∧
      (transcribe sampleOracles { sampleRequest with diarize := true } []).tempCreated = false ∧
      (transcribe sampleOracles { sampleRequest with diarize := true } []).loads = [] ∧
      (transcribe sampleOracles { sampleRequest with diarize := true } []).transcribeRan
        = false ∧
      (transcribe sampleOracles { sampleRequest with diarize := true } []).alignModelLoadAttempted
        = false ∧
      (transcribe sampleOracles { sampleRequest with diarize := true } []).diarizeAttempted
        = false) :=
  ⟨rfl, rfl, C3_diarize_without_token_rejected sampleOracles
    { sampleRequest with diarize := true } [] rfl rfl⟩

/-! ### Structural lemmas about the pipeline -/

/-- Function `runPipeline` carries its cache argument into the outcome unchanged:
nothing after model acquisition touches the model cache. -/
theorem runPipeline_model_cache (o : Oracles) (req : Request) (m : Handle)
    (c : Cache) (l : List String) : (runPipeline o req m c l).model_cache = c := by
  unfold runPipeline
  repeat' split
  all_goals rfl

/-- The HTTP response of `runPipeline` does not depend on the cache or the
load-invocation list it carries. -/
theorem runPipeline_response_const (o : Oracles) (req : Request) (m : Handle)
    (c c' : Cache) (l l' : List String) :
    (runPipeline o req m c l).response = (runPipeline o req m c' l').response := by
  unfold runPipeline
  repeat' split
  all_goals rfl

/-- On every path through `runPipeline` the scratch directory was created
and both the scratch file and the directory are gone afterwards: the
`finally` block runs on success and on every raise. -/
theorem runPipeline_cleanup (o : Oracles) (req : Request) (m : Handle)
    (c : Cache) (l : List String) :
    (runPipeline o req m c l).tempCreated = true ∧
    (runPipeline o req m c l).tempFileExists = false ∧
    (runPipeline o req m c l).tempDirExists = false := by
  unfold runPipeline
  repeat' split
  all_goals exact ⟨rfl, rfl, rfl⟩

/-! ### Claims C8 (cleanup) and C9 (determinism) -/

/-- C8: every request that passes validation (and therefore reaches the
persist stage and creates the scratch file) ends with neither the scratch
file nor its temporary directory existing, on success and on every failure
path alike. -/
theorem C8_scratch_always_cleaned (o : Oracles) (req : Request) (c : Cache)
    (hf : pyTruthy req.filename = true)
    (hd : (req.diarize && !(pyTruthy req.hf_token)) = false) :
    (transcribe o req c).tempCreated = true ∧
    (transcribe o req c).tempFileExists = false ∧
    (transcribe o req c).tempDirExists = false := by
  unfold transcribe
  simp only [hf, hd, Bool.not_true, Bool.false_eq_true, if_false]
  split
  · exact ⟨rfl, rfl, rfl⟩
  · exact runPipeline_cleanup _ _ _ _ _

/-- Witness for C8: a valid request whose pipeline succeeds end to end. -/
theorem C8_scratch_always_cleaned_witness :
    pyTruthy sampleRequest.filename = true ∧
    (sampleRequest.diarize && !(pyTruthy sampleRequest.hf_token)) = false ∧
    ((transcribe sampleOracles sampleRequest []).tempCreated = true ∧
      (transcribe sampleOracles sampleRequest []).tempFileExists = false ∧
      (transcribe sampleOracles sampleRequest []).tempDirExists = false) :=
  ⟨rfl, rfl, C8_scratch_always_cleaned sampleOracles sampleRequest [] rfl rfl⟩

/-- C9: the pipeline is deterministic given its deterministic collaborator
functions.  Running the same request twice in sequence — the second run
starting from the model cache the first run produced — yields the same
HTTP response, whether the first run populated the cache, hit it, or
failed to load the model. -/
theorem C9_repeat_request_same_response (o : Oracles) (req : Request) (c : Cache) :
    (transcribe o req (transcribe o req c).model_cache).response
      = (transcribe o req c).response := by
  cases hf : pyTruthy req.filename with
  | false => simp [transcribe, hf]
  | true =>
    cases hd : req.diarize && !(pyTruthy req.hf_token) with
    | true => simp [transcribe, hf, hd]
    | false =>
      cases hcl : c.lookup req.model with
      | some h =>
        simp [transcribe, hf, hd, get_model, hcl, runPipeline_model_cache]
      | none =>
        cases hl : o.load_model req.model with
        | error e => simp [transcribe, hf, hd, get_model, hcl, hl]
        | ok h =>
          simp [transcribe, hf, hd, get_model, hcl, hl, runPipeline_model_cache,
            List.lookup]
          exact runPipeline_response_const o req h _ _ _ _

/-! ### Claim C10 (empty transcription skips alignment) -/

/-- C10: when a request with `align` set produces a transcription whose
segment list is empty or absent, the alignment stage is skipped — the
alignment model load is never attempted — and, when diarization is not
triggered, the response is the success response assembled from the
unaligned transcription result. -/
theorem C10_empty_segments_skip_alignment (o : Oracles) (req : Request) (c : Cache)
    (m : Handle) (cache2 : Cache) (inv : Bool) (audio : Audio) (result : TResult)
    (hf : pyTruthy req.filename = true)
    (hd : (req.diarize && !(pyTruthy req.hf_token)) = false)
    (hm : get_model o.load_model req.model c = (Except.ok m, cache2, inv))
    (ha : o.load_audio req.content = Except.ok audio)
    (ht : o.transcribe m audio req.language = Except.ok result)
    (hal : req.align = true)
    (hs : truthySegs result.segments = false) :
    (transcribe o req c).alignModelLoadAttempted = false ∧
    ((req.diarize && pyTruthy req.hf_token) = false →
      (transcribe o req c).response
        = successResponse (detectedLanguage result req) result) := by
  have hstage : alignStage o req.align (detectedLanguage result req) audio result
      = (result, false, []) := by
    unfold alignStage
    simp [hal, hs]
  constructor
  · unfold transcribe runPipeline
    simp only [hf, hd, hm, ha, ht, hstage, Bool.not_true, Bool.false_eq_true, if_false]
    repeat' split
    all_goals rfl
  · intro hdz
    unfold transcribe runPipeline
    simp only [hf, hd, hm, ha, ht, hstage, hdz, Bool.not_true, Bool.false_eq_true, if_false]

/-- Witness for C10: a run whose transcription returns an empty segment
list with alignment requested. -/
theorem C10_empty_segments_skip_alignment_witness :
    pyTruthy sampleRequest.filename = true ∧
    (sampleRequest.diarize && !(pyTruthy sampleRequest.hf_token)) = false ∧
    get_model emptySegOracles.load_model sampleRequest.model []
      = (Except.ok 7, [("base", 7)], true) ∧
    emptySegOracles.load_audio sampleRequest.content = Except.ok 1 ∧
    emptySegOracles.transcribe 7 1 sampleRequest.language = Except.ok emptyResult ∧
    sampleRequest.align = true ∧
    truthySegs emptyResult.segments = false ∧
    ((transcribe emptySegOracles sampleRequest []).alignModelLoadAttempted = false ∧
      ((sampleRequest.diarize && pyTruthy sampleRequest.hf_token) = false →
        (transcribe emptySegOracles sampleRequest []).response
          = successResponse (detectedLanguage emptyResult sampleRequest) emptyResult)) :=
  ⟨rfl, rfl, rfl, rfl, rfl, rfl, rfl,
    C10_empty_segments_skip_alignment emptySegOracles sampleRequest [] 7 [("base", 7)]
      true 1 emptyResult rfl rfl rfl rfl rfl rfl rfl⟩

/-! ### Claim C6 (alignment failure is non-fatal) -/

/-- When the alignment stage is attempted and either the align-model load
or the realignment raises, the `except` swallows the error: the result is
returned unchanged and the failure is logged. -/
theorem alignStage_fail (o : Oracles) (dl : Option String) (audio : Audio)
    (result : TResult) (e : String)
    (hs : truthySegs result.segments = true)
    (hfail : o.load_align_model dl = Except.error e ∨
      ∃ ma md, o.load_align_model dl = Except.ok (ma, md) ∧
        o.align (result.segments.getD []) ma md audio = Except.error e) :
    alignStage o true dl audio result = (result, true, ["Alignment failed: " ++ e]) := by
  unfold alignStage
  rcases hfail with h | ⟨ma, md, h1, h2⟩
  · simp [hs, h]
  · simp [hs, h1, h2]

/-- C6: with alignment requested and the transcription delivering a
non-empty segment list, a failure raised inside the alignment stage (in
the align-model load or in the realignment itself) is non-fatal: it is
logged, and when diarization is not requested the handler still returns
the success response assembled from the pre-alignment transcription
result. -/
theorem C6_alignment_failure_nonfatal (o : Oracles) (req : Request) (c : Cache)
    (m : Handle) (cache2 : Cache) (inv : Bool) (audio : Audio) (result : TResult)
    (e : String)
    (hf : pyTruthy req.filename = true)
    (hdz : req.diarize = false)
    (hal : req.align = true)
    (hm : get_model o.load_model req.model c = (Except.ok m, cache2, inv))
    (ha : o.load_audio req.content = Except.ok audio)
    (ht : o.transcribe m audio req.language = Except.ok result)
    (hs : truthySegs result.segments = true)
    (hfail : o.load_align_model (detectedLanguage result req) = Except.error e ∨
      ∃ ma md, o.load_align_model (detectedLanguage result req) = Except.ok (ma, md) ∧
        o.align (result.segments.getD []) ma md audio = Except.error e) :
    (transcribe o req c).response
      = successResponse (detectedLanguage result req) result ∧
    ("Alignment failed: " ++ e) ∈ (transcribe o req c).logs := by
  have hstage := alignStage_fail o (detectedLanguage result req) audio result e hs hfail
  unfold transcribe runPipeline
  simp [hf, hdz, hal, hm, ha, ht, hstage]

/-- Witness for C6: collaborators whose align-model load raises. -/
theorem C6_alignment_failure_nonfatal_witness :
    pyTruthy sampleRequest.filename = true ∧
    sampleRequest.diarize = false ∧
    sampleRequest.align = true ∧
    get_model alignFailOracles.load_model sampleRequest.model []
      = (Except.ok 7, [("base", 7)], true) ∧
    alignFailOracles.load_audio sampleRequest.content = Except.ok 1 ∧
    alignFailOracles.transcribe 7 1 sampleRequest.language = Except.ok sampleResult ∧
    truthySegs sampleResult.segments = true ∧
    (alignFailOracles.load_align_model (detectedLanguage sampleResult sampleRequest)
        = Except.error "align boom" ∨
      ∃ ma md, alignFailOracles.load_align_model
          (detectedLanguage sampleResult sampleRequest) = Except.ok (ma, md) ∧
        alignFailOracles.align (sampleResult.segments.getD []) ma md 1
          = Except.error "align boom") ∧
    ((transcribe alignFailOracles sampleRequest []).response
        = successResponse (detectedLanguage sampleResult sampleRequest) sampleResult ∧
      ("Alignment failed: " ++ "align boom")
        ∈ (transcribe alignFailOracles sampleRequest []).logs) :=
  ⟨rfl, rfl, rfl, rfl, rfl, rfl, rfl, Or.inl rfl,
    C6_alignment_failure_nonfatal alignFailOracles sampleRequest [] 7 [("base", 7)]
      true 1 sampleResult "align boom" rfl rfl rfl rfl rfl rfl rfl (Or.inl rfl)⟩

/-! ### Claim C7 (diarization failure is fatal) -/

/-- Counterexample to C7 as stated: when the diarization pipeline raises
with message "boom", the handler responds 500 but its detail is
"Diarization failed: boom", not the underlying exception message "boom"
itself. -/
theorem C7_counterexample :
    (transcribe diarizeFailOracles diarizeRequest []).response
      = Response.httpError 500 "Diarization failed: boom" ∧
    (transcribe diarizeFailOracles diarizeRequest []).response
      ≠ Response.httpError 500 "boom" :=
  ⟨rfl, by decide⟩

/-- C7 (amended): with diarization requested and a token present, a
failure raised anywhere in the diarization stage is fatal — the handler
responds with HTTP 500 whose plain-text detail is the underlying exception
message prefixed with "Diarization failed: ", instead of a success
response. -/
theorem C7_diarization_failure_fatal (o : Oracles) (req : Request) (c : Cache)
    (m : Handle) (cache2 : Cache) (inv : Bool) (audio : Audio) (result : TResult)
    (e : String)
    (hf : pyTruthy req.filename = true)
    (hd : req.diarize = true)
    (htk : pyTruthy req.hf_token = true)
    (hm : get_model o.load_model req.model c = (Except.ok m, cache2, inv))
    (ha : o.load_audio req.content = Except.ok audio)
    (ht : o.transcribe m audio req.language = Except.ok result)
    (hds : diarizeStage o req.hf_token audio req.min_speakers req.max_speakers
        (alignStage o req.align (detectedLanguage result req) audio result).1
      = Except.error e) :
    (transcribe o req c).response
      = Response.httpError 500 ("Diarization failed: " ++ e) := by
  unfold transcribe runPipeline
  rcases hAS : alignStage o req.align (detectedLanguage result req) audio result
    with ⟨result2, alignAttempted, alignLogs⟩
  rw [hAS] at hds
  simp [hf, hd, htk, hm, ha, ht, hAS, hds]

/-- Witness for C7 (amended): the diarization pipeline constructor raising
"boom" on an otherwise valid diarization request. -/
theorem C7_diarization_failure_fatal_witness :
    pyTruthy diarizeRequest.filename = true ∧
    diarizeRequest.diarize = true ∧
    pyTruthy diarizeRequest.hf_token = true ∧
    get_model diarizeFailOracles.load_model diarizeRequest.model []
      = (Except.ok 7, [("base", 7)], true) ∧
    diarizeFailOracles.load_audio diarizeRequest.content = Except.ok 1 ∧
    diarizeFailOracles.transcribe 7 1 diarizeRequest.language = Except.ok sampleResult ∧
    diarizeStage diarizeFailOracles diarizeRequest.hf_token 1
        diarizeRequest.min_speakers diarizeRequest.max_speakers
        (alignStage diarizeFailOracles diarizeRequest.align
          (detectedLanguage sampleResult diarizeRequest) 1 sampleResult).1
      = Except.error "boom" ∧
    (transcribe diarizeFailOracles diarizeRequest []).response
      = Response.httpError 500 ("Diarization failed: " ++ "boom") :=
  ⟨rfl, rfl, rfl, rfl, rfl, rfl, rfl,
    C7_diarization_failure_fatal diarizeFailOracles diarizeRequest [] 7 [("base", 7)]
      true 1 sampleResult "boom" rfl rfl rfl rfl rfl rfl rfl⟩

/-! ### Claim C1 (shape and segment timing of the success response) -/

/-- The alignment stage preserves segment well-formedness: its output is
either the align oracle output or the unchanged input. -/
theorem alignStage_WF (o : Oracles) (b : Bool) (dl : Option String) (a : Audio)
    (r : TResult) (hwf : OraclesWF o) (hr : SegsWF r) :
    SegsWF (alignStage o b dl a r).1 := by
  unfold alignStage
  repeat' split
  all_goals first
    | exact hr
    | exact hwf.alignWF _ _ _ _ _ (by assumption)

/-- A successful diarization stage yields a well-formed result whenever
its input is well-formed. -/
theorem diarizeStage_WF (o : Oracles) (tok : Option String) (a : Audio)
    (mn mx : Option Int) (r r3 : TResult) (hwf : OraclesWF o) (hr : SegsWF r)
    (h : diarizeStage o tok a mn mx r = Except.ok r3) : SegsWF r3 := by
  unfold diarizeStage at h
  split at h
  · simp at h
  · split at h
    · simp at h
    · exact hwf.assignWF _ _ _ hr h

/-- Any 200 JSON response of the post-model pipeline has exactly the four
fields success/language/segments/word_segments, with a well-formed final
result supplying the segment and word lists. -/
theorem runPipeline_json_shape (o : Oracles) (req : Request) (m : Handle)
    (c : Cache) (l : List String) (fs : List (String × JValue)) (hwf : OraclesWF o)
    (h : (runPipeline o req m c l).response = Response.json fs) :
    ∃ dl r3, SegsWF r3 ∧
      fs = [("success", JValue.bool true), ("language", jlang dl),
            ("segments", JValue.segs (r3.segments.getD [])),
            ("word_segments", JValue.words (r3.word_segments.getD []))] := by
  unfold runPipeline at h
  split at h
  · simp at h
  · rename_i audio ha
    split at h
    · simp at h
    · rename_i result ht
      split at h
      rename_i result2 alignAttempted alignLogs hAS
      have hr2 : SegsWF result2 := by
        have hpre := alignStage_WF o req.align (detectedLanguage result req) audio
          result hwf (hwf.transcribeWF _ _ _ _ ht)
        rwa [hAS] at hpre
      split at h
      · split at h
        · simp at h
        · rename_i r3 hds
          simp only [successResponse, Response.json.injEq] at h
          exact ⟨detectedLanguage result req, r3,
            diarizeStage_WF o req.hf_token audio req.min_speakers req.max_speakers
              result2 r3 hwf hr2 hds, h.symm⟩
      · simp only [successResponse, Response.json.injEq] at h
        exact ⟨detectedLanguage result req, result2, hr2, h.symm⟩

/-- Any 200 JSON response of the handler has the shape and well-formedness
of `runPipeline_json_shape`: validation and model-load failures only ever
produce error responses. -/
theorem transcribe_json_shape (o : Oracles) (req : Request) (c : Cache)
    (fs : List (String × JValue)) (hwf : OraclesWF o)
    (h : (transcribe o req c).response = Response.json fs) :
    ∃ dl r3, SegsWF r3 ∧
      fs = [("success", JValue.bool true), ("language", jlang dl),
            ("segments", JValue.segs (r3.segments.getD [])),
            ("word_segments", JValue.words (r3.word_segments.getD []))] := by
  unfold transcribe at h
  split at h
  · simp at h
  · split at h
    · simp at h
    · split at h
      · simp at h
      · exact runPipeline_json_shape _ _ _ _ _ _ hwf h

/-- Counterexample to C1 as stated: a valid non-empty upload whose
pipeline completes without error yields a success response whose field
list carries no "duration" key at all — the as-built response consists of
success, language, segments and word_segments only. -/
theorem C1_counterexample :
    (transcribe sampleOracles sampleRequest []).response
      = Response.json
          [("success", JValue.bool true), ("language", JValue.str "en"),
           ("segments", JValue.segs
             [{ start := 0, «end» := 2, text := "hello world", speaker := none }]),
           ("word_segments", JValue.words
             [{ word := "hello", start := 0, «end» := 1 }])] ∧
    "duration" ∉ (respFields
      (transcribe sampleOracles sampleRequest []).response).map Prod.fst :=
  ⟨rfl, by decide⟩

/-- C1 (amended): whenever the handler returns a 200 JSON response (the
upload was accepted and every stage that ran completed without a fatal
error) and the inference collaborators only produce segments with
`end >= start`, the response carries success=true, carries no duration
field, and every segment in it satisfies `end >= start`. -/
theorem C1_success_response_wf (o : Oracles) (req : Request) (c : Cache)
    (fs : List (String × JValue)) (hwf : OraclesWF o)
    (h : (transcribe o req c).response = Response.json fs) :
    ("success", JValue.bool true) ∈ fs ∧
    "duration" ∉ fs.map Prod.fst ∧
    ∀ l, ("segments", JValue.segs l) ∈ fs → ∀ s ∈ l, s.start ≤ s.«end» := by
  obtain ⟨dl, r3, hr3, rfl⟩ := transcribe_json_shape o req c fs hwf h
  refine ⟨by simp, by simp, ?_⟩
  intro l hl s hs
  simp only [List.mem_cons, List.not_mem_nil, or_false, Prod.mk.injEq] at hl
  rcases hl with ⟨h1, _⟩ | ⟨h1, _⟩ | ⟨_, h2⟩ | ⟨h1, _⟩
  · exact absurd h1 (by decide)
  · exact absurd h1 (by decide)
  · cases h2
    exact hr3 s hs
  · exact absurd h1 (by decide)

/-- The sample collaborators only produce well-formed segment timing. -/
theorem sampleOraclesWF : OraclesWF sampleOracles := by
  constructor
  · intro m a l r hr
    simp only [sampleOracles, Except.ok.injEq] at hr
    subst hr
    unfold SegsWF
    decide
  · intro segs ma md a r hr
    simp only [sampleOracles, Except.ok.injEq] at hr
    subst hr
    unfold SegsWF
    decide
  · intro ds r r2 hwfr hr
    simp only [sampleOracles, Except.ok.injEq] at hr
    subst hr
    exact hwfr

/-- Witness for C1 (amended): the sample end-to-end successful run. -/
theorem C1_success_response_wf_witness :
    OraclesWF sampleOracles ∧
    (transcribe sampleOracles sampleRequest []).response
      = Response.json
          [("success", JValue.bool true), ("language", JValue.str "en"),
           ("segments", JValue.segs
             [{ start := 0, «end» := 2, text := "hello world", speaker := none }]),
           ("word_segments", JValue.words
             [{ word := "hello", start := 0, «end» := 1 }])] ∧
    (("success", JValue.bool true)
        ∈ [("success", JValue.bool true), ("language", JValue.str "en"),
           ("segments", JValue.segs
             [{ start := 0, «end» := 2, text := "hello world", speaker := none }]),
           ("word_segments", JValue.words
             [{ word := "hello", start := 0, «end» := 1 }])] ∧
      "duration" ∉ ([("success", JValue.bool true), ("language", JValue.str "en"),
           ("segments", JValue.segs
             [{ start := 0, «end» := 2, text := "hello world", speaker := none }]),
           ("word_segments", JValue.words
             [{ word := "hello", start := 0, «end» := 1 }])] :
          List (String × JValue)).map Prod.fst ∧
      ∀ l, ("segments", JValue.segs l)
          ∈ [("success", JValue.bool true), ("language", JValue.str "en"),
             ("segments", JValue.segs
               [{ start := 0, «end» := 2, text := "hello world", speaker := none }]),
             ("word_segments", JValue.words
               [{ word := "hello", start := 0, «end» := 1 }])] →
        ∀ s ∈ l, s.start ≤ s.«end») :=
  ⟨sampleOraclesWF, rfl,
    C1_success_response_wf sampleOracles sampleRequest [] _ sampleOraclesWF rfl⟩

end WhisperxApi
